import Mathlib

/-!
Verification of `src/app/load_data.py` (math-lib): a script that asks a
remote quoting service for the current BTCUSDT price and prints it.

The script is embedded shallowly:

* The JSON response of `client.get_symbol_ticker` is a dictionary with
  string keys and string values (`Dict`), since the service transports the
  price as a string.
* The remote service is an oracle `Service` mapping the requested symbol to
  either a response dictionary or a raised exception; the client call
  `get_symbol_ticker` consults the oracle and appends the request to an
  explicit request log, so that the number of outbound requests per call is
  part of the model.
* Python exceptions are the `Except PyError` monad: `d["price"]` raises
  `KeyError` when the key is missing, `float s` raises `ValueError` when the
  string does not denote a float, and any exception raised inside the client
  library is a `clientError`.
* Python floats are idealised as exact values (`PyFloat`): a rational for
  finite values, plus the infinities and nan that `float` can parse.  All
  price strings appearing in the specification denote values that are exact
  in binary64, so IEEE rounding is immaterial to the claims; the idealisation
  ignores overflow-to-infinity for astronomically large decimal literals.
* The entry point `mainProg` transcribes lines 12-14 of the source together
  with the Python runtime semantics for an unhandled exception: a traceback
  is printed to standard error and the interpreter exits with code 1.
-/

/-- A Python exception as raised by the statements of `get_btc_price`. -/
inductive PyError : Type where
  | keyError (key : String)
  | valueError
  | clientError (msg : String)
deriving DecidableEq, Repr

/-- The JSON object returned by the quoting service: string keys to string
values, e.g. `[("symbol", "BTCUSDT"), ("price", "42000.50")]`. -/
abbrev Dict := List (String × String)

/-- The remote quoting service as an oracle: for a requested symbol, either a
response dictionary or an exception raised inside the client library. -/
abbrev Service := String → Except PyError Dict

/-- An idealised Python float: an exact rational for finite values, plus the
infinities and nan which `float()` can also produce. -/
inductive PyFloat : Type where
  | finite (q : ℚ)
  | inf (neg : Bool)
  | nan
deriving DecidableEq, Repr

instance {ε α : Type} [DecidableEq ε] [DecidableEq α] : DecidableEq (Except ε α) :=
  fun a b =>
    match a, b with
    | Except.ok x, Except.ok y =>
      if h : x = y then isTrue (by rw [h]) else isFalse (by simp [h])
    | Except.error x, Except.error y =>
      if h : x = y then isTrue (by rw [h]) else isFalse (by simp [h])
    | Except.ok _, Except.error _ => isFalse (by simp)
    | Except.error _, Except.ok _ => isFalse (by simp)

/-- `d[k]` on a Python dict: the value at `k`, or a raised `KeyError k`. -/
def dictGetItem (d : Dict) (k : String) : Except PyError String :=
  match d.lookup k with
  | some v => Except.ok v
  | none => Except.error (PyError.keyError k)

/-- ASCII whitespace, as stripped by Python `float()` before parsing. -/
def isSpaceChar (c : Char) : Bool :=
  c == ' ' || c == '\t' || c == '\n' || c == '\r' || c == '\x0b' || c == '\x0c'

/-- Strip leading and trailing whitespace from a character list. -/
def trimChars (cs : List Char) : List Char :=
  ((cs.dropWhile isSpaceChar).reverse.dropWhile isSpaceChar).reverse

/-- Numeric value of a digit list, most significant first. -/
def digitsToNat (cs : List Char) : Nat :=
  cs.foldl (fun n c => 10 * n + (c.toNat - 48)) 0

/-- Whether every character is an ASCII decimal digit. -/
def allDigits (cs : List Char) : Bool :=
  cs.all Char.isDigit

/-- Mantissa of a Python float literal: an optional integer part and an
optional fractional part around at most one dot, at least one digit in all.
Returns `(mantissa-as-integer, number-of-fractional-digits)`. -/
def parseMant (cs : List Char) : Option (Nat × Nat) :=
  let ip := cs.takeWhile (fun c => c != '.')
  let rest := cs.dropWhile (fun c => c != '.')
  let fp : Option (List Char) :=
    match rest with
    | [] => some []
    | _ :: t => if t.contains '.' then none else some t
  match fp with
  | none => none
  | some f =>
    if allDigits ip && allDigits f && (!ip.isEmpty || !f.isEmpty) then
      some (digitsToNat ip * 10 ^ f.length + digitsToNat f, f.length)
    else
      none

/-- Exponent of a Python float literal: an optional sign and then at least
one digit. -/
def parseExp (cs : List Char) : Option Int :=
  let (neg, ds) :=
    match cs with
    | '+' :: rest => (false, rest)
    | '-' :: rest => (true, rest)
    | _ => (false, cs)
  if !ds.isEmpty && allDigits ds then
    some (if neg then -(digitsToNat ds : Int) else (digitsToNat ds : Int))
  else
    none

/-- The rational `m / 10^L * 10^e` computed with natural-number powers. -/
def decValue (m L : Nat) (e : Int) : ℚ :=
  if 0 ≤ e then mkRat (m * 10 ^ e.toNat) (10 ^ L)
  else mkRat m (10 ^ L * 10 ^ (-e).toNat)

/-- An unsigned Python float literal: a mantissa optionally followed by
`e`/`E` and an exponent. -/
def parseMantExp (cs : List Char) : Option ℚ :=
  let mant := cs.takeWhile (fun c => c != 'e' && c != 'E')
  let rest := cs.dropWhile (fun c => c != 'e' && c != 'E')
  match rest with
  | [] => (parseMant mant).map fun (m, L) => decValue m L 0
  | _ :: expPart =>
    match parseMant mant, parseExp expPart with
    | some (m, L), some e => some (decValue m L e)
    | _, _ => none

/-- Python `float(s)` on a string, as an exact value: surrounding whitespace
is stripped, an optional sign is read, and the rest is either one of the
case-insensitive keywords `inf`/`infinity`/`nan` or a decimal literal with
optional fractional part and optional exponent.  (Underscore digit
separators, legal in Python since 3.6, are not modelled; no claim involves
them.)  `none` means `float` raises `ValueError`. -/
def pyFloatOfString? (s : String) : Option PyFloat :=
  let cs := trimChars s.data
  let (neg, body) :=
    match cs with
    | '+' :: rest => (false, rest)
    | '-' :: rest => (true, rest)
    | _ => (false, cs)
  let lower := body.map Char.toLower
  if lower == "inf".data || lower == "infinity".data then
    some (PyFloat.inf neg)
  else if lower == "nan".data then
    some PyFloat.nan
  else
    (parseMantExp body).map fun q => PyFloat.finite (if neg then -q else q)

/-- Python `float(s)` in the exception monad: `ValueError` when the string
does not denote a float. -/
def pyFloat (s : String) : Except PyError PyFloat :=
  match pyFloatOfString? s with
  | some v => Except.ok v
  | none => Except.error PyError.valueError

/-- Line 9 of the source: `client.get_symbol_ticker(symbol=...)`.  Consults
the remote service and records the single outbound request in the log. -/
def get_symbol_ticker (svc : Service) (symbol : String) (log : List String) :
    Except PyError Dict × List String :=
  (svc symbol, log ++ [symbol])

/-- Lines 8-10 of the source:

    def get_btc_price():
        btc_price = client.get_symbol_ticker(symbol="BTCUSDT")
        return float(btc_price["price"])

The result is the returned value or the raised exception, paired with the
request log extended by the requests this call issued. -/
def get_btc_price (svc : Service) (log : List String) :
    Except PyError PyFloat × List String :=
  let (btc_price, log') := get_symbol_ticker svc "BTCUSDT" log
  (do
    let d ← btc_price
    let s ← dictGetItem d "price"
    pyFloat s,
   log')

/-- Number of times `p` divides `n` (fuel-based; `countFactors p n` with
fuel `n` suffices since the multiplicity of `p ≥ 2` in `n` is below `n`). -/
def countFactorsAux (p : Nat) : Nat → Nat → Nat
  | 0, _ => 0
  | fuel + 1, m =>
    if 2 ≤ p && m % p == 0 && m != 0 then countFactorsAux p fuel (m / p) + 1
    else 0

/-- Number of times the prime `p` divides `n`. -/
def countFactors (p n : Nat) : Nat :=
  countFactorsAux p n n

/-- Decimal digit string of a natural number (fuel-based). -/
def natToDigitsAux : Nat → Nat → List Char
  | 0, _ => []
  | fuel + 1, n =>
    if n == 0 then []
    else natToDigitsAux fuel (n / 10) ++ [Char.ofNat (48 + n % 10)]

/-- Decimal rendering of a natural number. -/
def natToStr (n : Nat) : String :=
  if n == 0 then "0" else String.mk (natToDigitsAux n n)

/-- Python `str` on a finite float whose exact value is the rational `q`:
the shortest decimal digit string denoting `q`, with a sign, always with at
least one fractional digit (so an integral value ends in `.0`).  Exact for
every rational with a 10-smooth denominator — in particular for every value
`pyFloatOfString?` produces; Python's switch to scientific presentation for
magnitudes at or above 1e16 is not modelled. -/
def ratDecimalRepr (q : ℚ) : String :=
  let sign := if q < 0 then "-" else ""
  let n := q.num.natAbs
  let k := max (countFactors 2 q.den) (countFactors 5 q.den)
  let m := n * 10 ^ k / q.den
  let s := (natToStr m).data
  if k == 0 then sign ++ String.mk s ++ ".0"
  else
    let s := if s.length ≤ k then List.replicate (k + 1 - s.length) '0' ++ s else s
    sign ++ String.mk (s.take (s.length - k)) ++ "." ++ String.mk (s.drop (s.length - k))

/-- Python `str` on a float, as used by the f-string on line 14. -/
def pyFloatRepr : PyFloat → String
  | PyFloat.finite q => ratDecimalRepr q
  | PyFloat.inf b => if b then "-inf" else "inf"
  | PyFloat.nan => "nan"

/-- Human-readable message of the traceback Python prints for an unhandled
exception. -/
def pyErrorMessage : PyError → String
  | PyError.keyError k => "KeyError: " ++ k
  | PyError.valueError => "ValueError: could not convert string to float"
  | PyError.clientError m => m

/-- Observable outcome of one run of the program. -/
structure ProgResult : Type where
  stdout : List String
  stderr : List String
  exitCode : Nat
deriving DecidableEq, Repr

/-- Lines 12-14 of the source:

    if __name__ == "__main__":
        price = get_btc_price()
        print(f"Current BTCUSDT {price}")

together with the Python runtime semantics of the two outcomes: on a normal
return the f-string line goes to standard output and the interpreter exits
with code 0; on an unhandled exception a traceback goes to standard error,
nothing goes to standard output, and the interpreter exits with code 1. -/
def mainProg (svc : Service) : ProgResult :=
  match (get_btc_price svc []).1 with
  | Except.ok price =>
    { stdout := ["Current BTCUSDT " ++ pyFloatRepr price]
      stderr := []
      exitCode := 0 }
  | Except.error e =>
    { stdout := []
      stderr := ["Traceback (most recent call last): " ++ pyErrorMessage e]
      exitCode := 1 }

/-- Modelled from the spec: section 7 of the specification defines the
failure kind `MalformedResponse` as "response received but could not be
parsed into the expected shape, or the price field could not be converted to
a number"; the source raises raw `KeyError`/`ValueError` in exactly those
two situations and never constructs named failure kinds itself. -/
def isMalformedResponse : PyError → Bool
  | PyError.keyError _ => true
  | PyError.valueError => true
  | PyError.clientError _ => false

/-- Unfolded form of `get_btc_price`: the value is the client response bound
through the `price` lookup and the float conversion; the log grows by the one
request for `BTCUSDT`. -/
theorem get_btc_price_eq (svc : Service) (log : List String) :
    get_btc_price svc log =
      ((svc "BTCUSDT").bind fun d => (dictGetItem d "price").bind pyFloat,
       log ++ ["BTCUSDT"]) := rfl

/-- C1: for every response from the quoting service whose `price` field
converts to a float value, `get_btc_price` returns exactly that value; in
particular the response `{"symbol": "BTCUSDT", "price": "42000.50"}` yields
the numeric value 42000.5. -/
theorem price_fetcher_returns_float_of_price_field :
    (∀ (svc : Service) (log : List String) (d : Dict) (s : String) (v : PyFloat),
        svc "BTCUSDT" = Except.ok d → d.lookup "price" = some s →
        pyFloatOfString? s = some v →
        (get_btc_price svc log).1 = Except.ok v) ∧
    (get_btc_price (fun _ => Except.ok [("symbol", "BTCUSDT"), ("price", "42000.50")]) []).1 =
      Except.ok (PyFloat.finite 42000.5) := by
  constructor
  · intro svc log d s v h1 h2 h3
    simp [get_btc_price_eq, Except.bind, h1, dictGetItem, h2, pyFloat, h3]
  · rw [show (42000.5 : ℚ) = mkRat 84001 2 by norm_num [Rat.mkRat_eq_div]]
    decide

/-- Witness for C1 at a concrete response. -/
theorem price_fetcher_returns_float_of_price_field_witness :
    (get_btc_price (fun _ => Except.ok [("symbol", "BTCUSDT"), ("price", "7.25")])
        ["earlier"]).1 = Except.ok (PyFloat.finite (mkRat 29 4)) :=
  price_fetcher_returns_float_of_price_field.1 _ _ _ _ _ rfl rfl (by decide)

/-- C2: a response whose `price` field is the string "0" makes
`get_btc_price` return 0.0 — a normal return, not a failure of any kind. -/
theorem zero_price_is_valid :
    ∀ (svc : Service) (log : List String) (d : Dict),
      svc "BTCUSDT" = Except.ok d → d.lookup "price" = some "0" →
      (get_btc_price svc log).1 = Except.ok (PyFloat.finite 0) := by
  intro svc log d h1 h2
  have h3 : pyFloatOfString? "0" = some (PyFloat.finite 0) := by decide
  simp [get_btc_price_eq, Except.bind, h1, dictGetItem, h2, pyFloat, h3]

/-- Witness for C2 at a concrete response. -/
theorem zero_price_is_valid_witness :
    (get_btc_price (fun _ => Except.ok [("symbol", "BTCUSDT"), ("price", "0")]) []).1 =
      Except.ok (PyFloat.finite 0) :=
  zero_price_is_valid _ _ _ rfl rfl

/-- C3: a response with no `price` field makes `get_btc_price` fail, and the
raised fault (a `KeyError`) is of the kind the specification calls
`MalformedResponse`. -/
theorem missing_price_field_is_malformed :
    ∀ (svc : Service) (log : List String) (d : Dict),
      svc "BTCUSDT" = Except.ok d → d.lookup "price" = none →
      ∃ e : PyError,
        (get_btc_price svc log).1 = Except.error e ∧ isMalformedResponse e = true := by
  intro svc log d h1 h2
  refine ⟨PyError.keyError "price", ?_, rfl⟩
  simp [get_btc_price_eq, Except.bind, h1, dictGetItem, h2]

/-- Witness for C3 at a concrete response. -/
theorem missing_price_field_is_malformed_witness :
    ∃ e : PyError,
      (get_btc_price (fun _ => Except.ok [("symbol", "BTCUSDT")]) []).1 =
          Except.error e ∧ isMalformedResponse e = true :=
  missing_price_field_is_malformed _ _ _ rfl rfl

/-- C4: a response whose `price` field does not convert to a float (such as
"N/A") makes `get_btc_price` fail, and the raised fault (a `ValueError`) is
of the kind the specification calls `MalformedResponse`. -/
theorem non_numeric_price_is_malformed :
    ∀ (svc : Service) (log : List String) (d : Dict) (s : String),
      svc "BTCUSDT" = Except.ok d → d.lookup "price" = some s →
      pyFloatOfString? s = none →
      ∃ e : PyError,
        (get_btc_price svc log).1 = Except.error e ∧ isMalformedResponse e = true := by
  intro svc log d s h1 h2 h3
  refine ⟨PyError.valueError, ?_, rfl⟩
  simp [get_btc_price_eq, Except.bind, h1, dictGetItem, h2, pyFloat, h3]

/-- Witness for C4 at the response with price "N/A". -/
theorem non_numeric_price_is_malformed_witness :
    ∃ e : PyError,
      (get_btc_price (fun _ => Except.ok [("symbol", "BTCUSDT"), ("price", "N/A")]) []).1 =
          Except.error e ∧ isMalformedResponse e = true :=
  non_numeric_price_is_malformed _ _ _ _ rfl rfl (by decide)

/-- C5: on every successful fetch the program writes exactly the one line
`Current BTCUSDT <price>` to standard output, nothing to standard error, and
exits with code 0; in particular price string "65432.10" yields the line
`Current BTCUSDT 65432.1`. -/
theorem main_success_output :
    (∀ (svc : Service) (price : PyFloat),
        (get_btc_price svc []).1 = Except.ok price →
        mainProg svc =
          { stdout := ["Current BTCUSDT " ++ pyFloatRepr price]
            stderr := []
            exitCode := 0 }) ∧
    mainProg (fun _ => Except.ok [("symbol", "BTCUSDT"), ("price", "65432.10")]) =
      { stdout := ["Current BTCUSDT 65432.1"], stderr := [], exitCode := 0 } := by
  constructor
  · intro svc price h
    simp [mainProg, h]
  · decide

/-- Witness for C5 at a concrete response. -/
theorem main_success_output_witness :
    mainProg (fun _ => Except.ok [("symbol", "BTCUSDT"), ("price", "2.5")]) =
      { stdout := ["Current BTCUSDT " ++ pyFloatRepr (PyFloat.finite (mkRat 5 2))]
        stderr := []
        exitCode := 0 } :=
  main_success_output.1 _ _ (by decide)

/-- C6: every failure of the fetch — a client-library fault, a missing
`price` key, or an unconvertible price — makes the program exit non-zero,
print to standard error, and write nothing to standard output. -/
theorem main_failure_behavior :
    ∀ (svc : Service) (e : PyError),
      (get_btc_price svc []).1 = Except.error e →
      (mainProg svc).exitCode ≠ 0 ∧
      (mainProg svc).stderr ≠ [] ∧
      (mainProg svc).stdout = [] := by
  intro svc e h
  simp [mainProg, h]

/-- Witness for C6 at a network fault from the client library. -/
theorem main_failure_behavior_witness :
    (mainProg (fun _ => Except.error (PyError.clientError "ConnectionError"))).exitCode ≠ 0 ∧
    (mainProg (fun _ => Except.error (PyError.clientError "ConnectionError"))).stderr ≠ [] ∧
    (mainProg (fun _ => Except.error (PyError.clientError "ConnectionError"))).stdout = [] :=
  main_failure_behavior _ (PyError.clientError "ConnectionError") rfl

/-- C7 counterexample: the code performs no validation of the price, so a
response whose `price` field is "-1" makes `get_btc_price` return the
negative value -1 successfully, refuting the claim that every successful
return is non-negative. -/
theorem negative_price_returned_successfully :
    (get_btc_price (fun _ => Except.ok [("symbol", "BTCUSDT"), ("price", "-1")]) []).1 =
      Except.ok (PyFloat.finite (-1)) ∧ (-1 : ℚ) < 0 := by
  constructor
  · decide
  · decide

/-- C7 (amended): whenever the `price` field of the response denotes a
non-negative finite value, the value `get_btc_price` returns is that
non-negative finite value; the function itself never checks the sign. -/
theorem nonneg_price_preserved :
    ∀ (svc : Service) (log : List String) (d : Dict) (s : String) (q : ℚ),
      svc "BTCUSDT" = Except.ok d → d.lookup "price" = some s →
      pyFloatOfString? s = some (PyFloat.finite q) → 0 ≤ q →
      (get_btc_price svc log).1 = Except.ok (PyFloat.finite q) ∧ 0 ≤ q := by
  intro svc log d s q h1 h2 h3 hq
  refine ⟨?_, hq⟩
  simp [get_btc_price_eq, Except.bind, h1, dictGetItem, h2, pyFloat, h3]

/-- Witness for the amended C7 at a concrete response. -/
theorem nonneg_price_preserved_witness :
    (get_btc_price (fun _ => Except.ok [("symbol", "BTCUSDT"), ("price", "3.5")]) []).1 =
      Except.ok (PyFloat.finite (mkRat 7 2)) ∧ (0 : ℚ) ≤ mkRat 7 2 :=
  nonneg_price_preserved _ _ _ _ _ rfl rfl (by decide) (by decide)

/-- C8: one call of `get_btc_price` appends exactly one outbound request (for
the symbol BTCUSDT) to the request log, and the returned value depends only
on the service's response to that request — not on the log of prior requests
or on anything else. -/
theorem single_request_and_stateless :
    ∀ (svc svc' : Service) (log log' : List String),
      svc "BTCUSDT" = svc' "BTCUSDT" →
      (get_btc_price svc log).2 = log ++ ["BTCUSDT"] ∧
      (get_btc_price svc log).1 = (get_btc_price svc' log').1 := by
  intro svc svc' log log' h
  exact ⟨rfl, by simp [get_btc_price_eq, Except.bind, h]⟩

/-- Witness for C8 at two calls with different logs and equal responses. -/
theorem single_request_and_stateless_witness :
    (get_btc_price (fun _ => Except.ok [("price", "1")]) ["a", "b"]).2 =
        ["a", "b"] ++ ["BTCUSDT"] ∧
    (get_btc_price (fun _ => Except.ok [("price", "1")]) ["a", "b"]).1 =
      (get_btc_price (fun _ => Except.ok [("price", "1")]) []).1 :=
  single_request_and_stateless _ _ ["a", "b"] [] rfl

/-- C9: the value `get_btc_price` returns depends only on the `price` field
of the response: two responses with equal `price` lookups give equal
results, whatever their `symbol` or other fields are. -/
theorem result_depends_only_on_price_field :
    ∀ (d d' : Dict) (log log' : List String),
      d.lookup "price" = d'.lookup "price" →
      (get_btc_price (fun _ => Except.ok d) log).1 =
        (get_btc_price (fun _ => Except.ok d') log').1 := by
  intro d d' log log' h
  simp [get_btc_price_eq, Except.bind, dictGetItem, h]

/-- Witness for C9 at two responses differing everywhere but in `price`. -/
theorem result_depends_only_on_price_field_witness :
    (get_btc_price (fun _ => Except.ok [("symbol", "BTCUSDT"), ("price", "1.5")]) []).1 =
      (get_btc_price (fun _ => Except.ok [("price", "1.5"), ("other", "x")]) ["r"]).1 :=
  result_depends_only_on_price_field _ _ _ _ rfl

/-- C10: `get_btc_price` has no exception handling of its own — a fault from
the client call propagates unchanged, a missing `price` key escapes as the
raw `KeyError`, and an unconvertible price escapes as the raw `ValueError`;
nothing is caught, translated, or retried inside the function. -/
theorem no_internal_exception_handling :
    (∀ (svc : Service) (log : List String) (e : PyError),
        svc "BTCUSDT" = Except.error e →
        (get_btc_price svc log).1 = Except.error e) ∧
    (∀ (svc : Service) (log : List String) (d : Dict),
        svc "BTCUSDT" = Except.ok d → d.lookup "price" = none →
        (get_btc_price svc log).1 = Except.error (PyError.keyError "price")) ∧
    (∀ (svc : Service) (log : List String) (d : Dict) (s : String),
        svc "BTCUSDT" = Except.ok d → d.lookup "price" = some s →
        pyFloatOfString? s = none →
        (get_btc_price svc log).1 = Except.error PyError.valueError) := by
  refine ⟨?_, ?_, ?_⟩
  · intro svc log e h
    simp [get_btc_price_eq, Except.bind, h]
  · intro svc log d h1 h2
    simp [get_btc_price_eq, Except.bind, h1, dictGetItem, h2]
  · intro svc log d s h1 h2 h3
    simp [get_btc_price_eq, Except.bind, h1, dictGetItem, h2, pyFloat, h3]

/-- Witness for C10 at the three concrete fault sites. -/
theorem no_internal_exception_handling_witness :
    (get_btc_price (fun _ => Except.error (PyError.clientError "Timeout")) []).1 =
        Except.error (PyError.clientError "Timeout") ∧
    (get_btc_price (fun _ => Except.ok [("symbol", "BTCUSDT")]) ["q"]).1 =
        Except.error (PyError.keyError "price") ∧
    (get_btc_price (fun _ => Except.ok [("price", "abc")]) []).1 =
        Except.error PyError.valueError :=
  ⟨no_internal_exception_handling.1 _ _ _ rfl,
   no_internal_exception_handling.2.1 _ _ _ rfl rfl,
   no_internal_exception_handling.2.2 _ _ _ _ rfl rfl (by decide)⟩
